import Mathlib

/-!
# Verification of the `sltxt2svg` Go-diagram interpreter

Shallow embedding of `src/sltxt2svg.ts` (class `GoDiagram`): the header
parser, the grid normalizer, border detection, layout geometry, and the
SVG renderer.  Strings are modelled as `List Char`; JavaScript's
`undefined` results are modelled as `Option.none`; a JavaScript runtime
exception (reading a property of `undefined`) is modelled by an
`Option.none` result of the whole computation.

The embedding fixes the font metrics to the constructor default
`{h := 16, w := 8}`: the only caller (`src/main.ts`) always constructs
`new GoDiagram(source)` with the default.  With these metrics every
pixel quantity produced by the code is an exact multiple of 1/4, so
pixel values are represented as integers scaled by 4 (`x4`, `y4`, …)
and rendered to strings exactly as JavaScript prints those floats.
-/

set_option maxRecDepth 20000

namespace Goban

/-- A JavaScript string (or a token of the normalized grid): a list of chars. -/
abbrev Tok := List Char

/-- The character U+007B (left curly brace), written numerically. -/
def braceChar : Char := Char.ofNat 123

/-- JS whitespace class (`\s`, and the chars removed by `String.trim`),
restricted to the ASCII range that can occur here. -/
def isJsSpace (c : Char) : Bool :=
  c == ' ' || c == '\t' || c == '\n' || c == '\r' || c == Char.ofNat 11 || c == Char.ofNat 12

/-- JavaScript `String.prototype.trim`. -/
def jsTrim (l : Tok) : Tok :=
  ((l.dropWhile isJsSpace).reverse.dropWhile isJsSpace).reverse

/-- JavaScript `split("\n")`: always returns at least one piece; a trailing
newline yields a trailing empty piece. -/
def splitNl : List Char → List (List Char)
  | [] => [[]]
  | c :: rest =>
    if c = '\n' then [] :: splitNl rest
    else
      match splitNl rest with
      | [] => [[c]]
      | r :: rs => (c :: r) :: rs

/-- JavaScript `split(" ")` (used for non-compact rows). -/
def splitSp : List Char → List (List Char)
  | [] => [[]]
  | c :: rest =>
    if c = ' ' then [] :: splitSp rest
    else
      match splitSp rest with
      | [] => [[c]]
      | r :: rs => (c :: r) :: rs

/-- `diag.replace(/[-|+]/g, "%")`, one character at a time. -/
def normalizeChar (c : Char) : Char :=
  if c = '-' || c = '|' || c = '+' then '%' else c

/-- Worker for `collapseNl`: the flag records whether the previous
character belonged to a newline run whose replacement was already
emitted. -/
def collapseNlAux : Bool → List Char → List Char
  | _, [] => []
  | inRun, c :: rest =>
    if c = '\n' then
      if inRun then collapseNlAux true rest
      else ' ' :: '\n' :: collapseNlAux true rest
    else c :: collapseNlAux false rest

/-- `diag.replace(/\n+/g, " \n")`: each maximal run of newlines becomes a
space followed by a single newline. -/
def collapseNl (l : List Char) : List Char := collapseNlAux false l

/-- The three `replace` calls of `initBoardAndDimensions`, in source order:
border chars to the `%` sentinel, strip tab/CR/dollar, collapse newlines. -/
def normalizeDiag (d : List Char) : List Char :=
  collapseNl ((d.map normalizeChar).filter (fun c => !(c == '\t' || c == '\r' || c == '$')))

/-- The non-compact test of the row classification:
`tempRows[i].contains(' ') && /\d/.test(tempRows[i]) && !tempRows[i].contains('{')`. -/
def splitsOnSpaces (l : List Char) : Bool :=
  l.contains ' ' && l.any Char.isDigit && !(l.contains braceChar)

/-- Row classification: non-compact rows are split on spaces into
multi-character tokens; all other rows have their spaces stripped and are
indexed character by character (modelled as singleton tokens). -/
def classifyLine (l : List Char) : List Tok :=
  if splitsOnSpaces l then splitSp l
  else (l.filter (fun c => c != ' ')).map (fun c => [c])

/-- `this.rows` as computed from the accumulated diagram body. -/
def makeRows (d : List Char) : List (List Tok) :=
  (splitNl (normalizeDiag d)).map classifyLine

/-- Value of a nonempty digit prefix, base 10. -/
def digitsVal (r : List Char) : Option Nat :=
  let ds := r.takeWhile Char.isDigit
  if ds = [] then none
  else some (ds.foldl (fun acc c => acc * 10 + (c.toNat - '0'.toNat)) 0)

/-- JavaScript `parseInt(s)` (radix 10): skip leading whitespace, optional
sign, then a digit run; `none` models `NaN`. -/
def parseIntJS (t : Tok) : Option Int :=
  match t.dropWhile isJsSpace with
  | '-' :: r => (digitsVal r).map (fun n => -(n : Int))
  | '+' :: r => (digitsVal r).map (fun n => (n : Int))
  | r => (digitsVal r).map (fun n => (n : Int))

/-- JavaScript `%` (truncated remainder). -/
def jsRem (a b : Int) : Int :=
  a.sign * ((a.natAbs % b.natAbs : Nat) : Int)

/-- JavaScript `<` on strings: lexicographic by code unit. -/
def jsStrLt : Tok → Tok → Bool
  | [], [] => false
  | [], _ :: _ => true
  | _ :: _, [] => false
  | a :: as, b :: bs =>
    if a.toNat < b.toNat then true
    else if b.toNat < a.toNat then false
    else jsStrLt as bs

/-- JavaScript `<=` on strings. -/
def jsStrLe (a b : Tok) : Bool := jsStrLt a b || a == b

/-! ## Header parser -/

/-- The data extracted from the first line by
`match(/^\$\$([WB])?(c)?(d+)?(.*)/)`.  `boardSize = none` models `NaN`
(the third group is a run of literal `d` characters, whose `parseInt` is
`NaN`). -/
structure Header where
  firstColor : Char
  coordinates : Bool
  boardSize : Option Int
  title : Tok
  deriving Repr, DecidableEq

/-- The first-line match `/^\$\$([WB])?(c)?(d+)?(.*)/` followed by the
field assignments of the constructor.  All groups after the `$$` prefix
are optional and greedy, so the match is deterministic; `none` means the
regex failed (line does not start with `$$`). -/
def matchHeader (l : Tok) : Option Header :=
  match l with
  | '$' :: '$' :: rest =>
    let g1r1 : Option Char × Tok :=
      match rest with
      | c :: t => if c == 'W' || c == 'B' then (some c, t) else (none, rest)
      | [] => (none, rest)
    let g2r2 : Bool × Tok :=
      match g1r1.2 with
      | 'c' :: t => (true, t)
      | _ => (false, g1r1.2)
    let ds := g2r2.2.takeWhile (fun c => c = 'd')
    let g3 : Option Tok := if ds = [] then none else some ds
    let r3 := g2r2.2.drop ds.length
    some { firstColor := if g1r1.1 = some 'W' then 'W' else 'B'
           coordinates := g2r2.1
           boardSize := match g3 with
             | none => some 19
             | some dds => parseIntJS dds
           title := jsTrim r3 }
  | _ => none

/-! ## Body and link scanning -/

/-- The content-line match `line.trim().match(/^\$\$\s*([^[\s].*)/)`:
after the `$$` prefix and optional whitespace there must be a character
that is neither `[` nor whitespace; the capture runs to the end of the
(trimmed) line. -/
def bodyLineMatch (line : Tok) : Option Tok :=
  match jsTrim line with
  | '$' :: '$' :: rest =>
    let r := rest.dropWhile isJsSpace
    match r with
    | [] => none
    | c :: _ => if c = '[' then none else some r
  | _ => none

/-- Index of the last occurrence of `c` in `l` strictly before `stop`
(`stop = none` means no upper bound). -/
def lastIdxBefore (l : List Char) (c : Char) (stop : Option Nat) : Option Nat :=
  ((List.range l.length).filter
    (fun i => l.get? i == some c &&
      match stop with
      | none => true
      | some j => i < j)).getLast?

/-- The link-line match `line.match(/^\$\$\s*\[(.*)\|(.*)\]/)` (applied to
the raw, untrimmed line).  Both captures are greedy: the second ends at
the last `]` of the line, the first at the last `|` before it. -/
def linkLineMatch (line : Tok) : Option (Tok × Tok) :=
  match line with
  | '$' :: '$' :: rest =>
    match rest.dropWhile isJsSpace with
    | '[' :: t =>
      match lastIdxBefore t ']' none with
      | none => none
      | some j =>
        match lastIdxBefore t '|' (some j) with
        | none => none
        | some i => some (t.take i, (t.drop (i + 1)).take (j - i - 1))
    | _ => none
  | _ => none

/-- The anchor character class `/^[a-z0-9WB@#CS]$/`. -/
def isAnchorChar (c : Char) : Bool :=
  ('a' ≤ c && c ≤ 'z') || c.isDigit || c == 'W' || c == 'B' ||
    c == '@' || c == '#' || c == 'C' || c == 'S'

/-- First match wins on lookup; `scanLines` prepends new entries, so the
most recent write for an anchor is found (last write wins, as for a JS
object). -/
def lookupLink (m : List (Tok × Tok)) (k : Tok) : Option Tok :=
  match m with
  | [] => none
  | (a, u) :: rest => if a == k then some u else lookupLink rest k

/-- The loop over `this.content.slice(1)`: accumulate the diagram body
(matched content lines, newline-appended) and the link map.  The two
matches are tested independently on every line. -/
def scanLines (lines : List Tok) : Tok × List (Tok × Tok) :=
  lines.foldl
    (fun acc line =>
      let d := match bodyLineMatch line with
        | some t => acc.1 ++ t ++ ['\n']
        | none => acc.1
      let m := match linkLineMatch line with
        | some g =>
          match jsTrim g.1 with
          | [c] => if isAnchorChar c then ([c], jsTrim g.2) :: acc.2 else acc.2
          | _ => acc.2
        | none => acc.2
      (d, m))
    ([], [])

/-! ## Border detection and layout geometry -/

/-- Font cell height in pixels (constructor default). -/
def fontH : Int := 16

/-- Font cell width in pixels (constructor default). -/
def fontW : Int := 8

/-- `⌊√n⌋`, by brute-force counting (kernel-reducible). -/
def floorSqrt (n : Nat) : Nat :=
  ((List.range (n + 1)).filter (fun k => decide (k * k ≤ n))).length - 1

/-- `Math.floor(Math.sqrt(h**2 + w**2))` for the default font metrics:
`⌊√(16² + 8²)⌋ = ⌊√320⌋ = 17`. -/
def diameter : Int := Int.ofNat (floorSqrt 320)

/-- `this.rows[y]`; `none` models JS `undefined` (negative or too-large
index). -/
def rowAt (rows : List (List Tok)) (y : Int) : Option (List Tok) :=
  if y < 0 then none else rows.get? y.toNat

/-- Token `r[x]` of one row; `none` models JS `undefined`. -/
def tokIn (r : List Tok) (x : Int) : Option Tok :=
  if x < 0 then none else r.get? x.toNat

/-- `this.rows[y][x]` when the row exists. -/
def tokAt (rows : List (List Tok)) (y x : Int) : Option Tok :=
  (rowAt rows y).bind (fun r => tokIn r x)

/-- Output of the border-detection block of `initBoardAndDimensions`. -/
structure Borders where
  startrow : Int
  startcol : Int
  endrow : Int
  endcol : Int
  topborder : Int
  bottomborder : Int
  leftborder : Int
  rightborder : Int
  deriving Repr, DecidableEq

/-- The four border probes, in source order.  The top probe tests
`rows[0][1]`, the bottom probe `rows[endrow][1]` with `endrow` still at
`rows.length - 1`, the left probe `rows[startrow][0]` after the top
adjustment, and the right probe `rows[endrow][endcol]` with the adjusted
`endrow` and `endcol = rows[startrow].length - 2`.  (`rows[startrow]` is
always defined on grids produced by `makeRows`; if it were not, the
missing row is modelled as length 0, which drives the diagram into the
invalid state just as the real code could never reach this point.) -/
def detectBorders (rows : List (List Tok)) : Borders :=
  let endrow0 : Int := rows.length - 1
  let top := tokAt rows 0 1 == some ['%']
  let startrow1 : Int := if top then 1 else 0
  let bottom := tokAt rows endrow0 1 == some ['%']
  let endrow1 : Int := if bottom then endrow0 - 1 else endrow0
  let left := tokAt rows startrow1 0 == some ['%']
  let startcol1 : Int := if left then 1 else 0
  let rowLen : Int := match rowAt rows startrow1 with
    | some r => (r.length : Int)
    | none => 0
  let endcol0 : Int := rowLen - 2
  let right := tokAt rows endrow1 endcol0 == some ['%']
  let endcol1 : Int := if right then endcol0 - 1 else endcol0
  { startrow := startrow1, startcol := startcol1, endrow := endrow1, endcol := endcol1
    topborder := if top then 1 else 0
    bottomborder := if bottom then 1 else 0
    leftborder := if left then 1 else 0
    rightborder := if right then 1 else 0 }

/-- Everything `initBoardAndDimensions` computes. -/
structure BoardDims extends Borders where
  rows : List (List Tok)
  imageWidth : Int
  imageHeight : Int
  offset_x : Int
  offset_y : Int
  coordinates : Bool
  deriving Repr, DecidableEq

/-- `initBoardAndDimensions`: normalize the body into rows, detect
borders, compute image geometry, and add the coordinate margins when
coordinates are requested and both a horizontal and a vertical border are
present (otherwise coordinates are forced off). -/
def initBoardAndDimensions (coords : Bool) (diagram : List Char) : BoardDims :=
  let rows := makeRows diagram
  let b := detectBorders rows
  let imageWidth0 := diameter * (1 + b.endcol - b.startcol) + 4
  let imageHeight0 := diameter * (1 + b.endrow - b.startrow) + 4
  if coords then
    if (b.bottomborder ≠ 0 ∨ b.topborder ≠ 0) ∧ (b.leftborder ≠ 0 ∨ b.rightborder ≠ 0) then
      { b with rows := rows
               imageWidth := imageWidth0 + (fontW * 2 + 4)
               imageHeight := imageHeight0 + (fontH + 2)
               offset_x := 2 + (fontW * 2 + 4)
               offset_y := 2 + (fontH + 2)
               coordinates := true }
    else
      { b with rows := rows, imageWidth := imageWidth0, imageHeight := imageHeight0
               offset_x := 2, offset_y := 2, coordinates := false }
  else
    { b with rows := rows, imageWidth := imageWidth0, imageHeight := imageHeight0
             offset_x := 2, offset_y := 2, coordinates := false }

/-- The validity check performed at the end of the constructor; if it
holds, `this.diagram` is reset to `null`. -/
def DegenerateDims (b : BoardDims) : Prop :=
  b.startrow > b.endrow ∨ b.startcol > b.endcol ∨
    b.endrow < 0 ∨ b.endcol < 0 ∨
    b.imageWidth < fontW ∨ b.imageHeight < fontH

instance (b : BoardDims) : Decidable (DegenerateDims b) := by
  unfold DegenerateDims; infer_instance

/-! ## The diagram state (the fields of a `GoDiagram` instance) -/

/-- The instance fields of `GoDiagram` after the constructor has run.
`diagram = none` models `this.diagram === null` (parse failure).  On the
early return for a failed header match the TypeScript fields after
`failureErrorMessage` simply stay `undefined` and are never read
(`createSVG` short-circuits on `diagram`); the embedding gives them fixed
defaults. -/
structure GoState where
  diagram : Option (List Char)
  failureErrorMessage : List Char
  firstColor : Char
  coordinates : Bool
  boardSize : Option Int
  title : Tok
  linkmap : List (Tok × Tok)
  rows : List (List Tok)
  startrow : Int
  startcol : Int
  endrow : Int
  endcol : Int
  topborder : Int
  bottomborder : Int
  leftborder : Int
  rightborder : Int
  imageWidth : Int
  imageHeight : Int
  offset_x : Int
  offset_y : Int
  deriving Repr, DecidableEq

/-- The `GoDiagram` constructor: split the input into lines, match the
header on the trimmed first line (early return with a failure message on
no match), scan the remaining lines for body content and links, run
`initBoardAndDimensions`, and finally null out `diagram` when the
computed dimensions are degenerate. -/
def parseGo (input : List Char) : GoState :=
  let content := splitNl input
  match matchHeader (jsTrim (content.headD [])) with
  | none =>
    { diagram := none
      failureErrorMessage := "Parsing of ASCII diagram failed".toList
      firstColor := 'B', coordinates := false, boardSize := some 19, title := []
      linkmap := [], rows := []
      startrow := 0, startcol := 0, endrow := 0, endcol := 0
      topborder := 0, bottomborder := 0, leftborder := 0, rightborder := 0
      imageWidth := 0, imageHeight := 0, offset_x := 0, offset_y := 0 }
  | some h =>
    let dm := scanLines (content.drop 1)
    let b := initBoardAndDimensions h.coordinates dm.1
    { diagram := if DegenerateDims b then none else some dm.1
      failureErrorMessage := []
      firstColor := h.firstColor
      coordinates := b.coordinates
      boardSize := h.boardSize
      title := h.title
      linkmap := dm.2
      rows := b.rows
      startrow := b.startrow, startcol := b.startcol
      endrow := b.endrow, endcol := b.endcol
      topborder := b.topborder, bottomborder := b.bottomborder
      leftborder := b.leftborder, rightborder := b.rightborder
      imageWidth := b.imageWidth, imageHeight := b.imageHeight
      offset_x := b.offset_x, offset_y := b.offset_y }

/-! ## Pixel values and their JavaScript string rendering

With the default font metrics every pixel value the renderer prints is an
exact multiple of 1/4 (the cell radius is 8.5, `radius / 2` is 4.25).
A value `v` is represented by the integer `4 * v`, and `qStr` prints it
exactly as JavaScript stringifies the corresponding float. -/

/-- Print a quarter-scaled value as JavaScript prints the float `n / 4`:
no decimal part for integers, `.5` / `.25` / `.75` otherwise. -/
def qStr (n : Int) : String :=
  let a := n.natAbs
  let sign := if n < 0 then "-" else ""
  let frac := if a % 4 == 0 then "" else if a % 4 == 2 then ".5"
              else if a % 4 == 1 then ".25" else ".75"
  sign ++ toString (a / 4) ++ frac

/-- `this.radius` (= `diameter / 2` = 8.5) in quarter scale. -/
def rad4 : Int := 2 * diameter

def blackColor : String := "rgb(0, 0, 0)"

def whiteColor : String := "rgb(255, 255, 255)"

def redColor : String := "rgb(255, 55, 55)"

def gobanColor : String := "rgb(242, 176, 109)"

def linkColor : String := "rgb(202, 106, 69)"

/-- `Math.floor(this.fontSize["h"] * 0.9)` for the default height 16
(the IEEE-754 product is ≈14.4, whose floor is 14). -/
def markupFontPx : Int := 14

/-- `svgMarkupTextSize`. -/
def svgMarkupTextSize : String := "style=\"font-size:" ++ toString markupFontPx ++ "px\""

/-- `svgDefaultTextSize` (`fontSize.h / 2` = 8). -/
def svgDefaultTextSize : String := "style=\"font-size:" ++ toString (fontH / 2) ++ "px\""

/-- `drawStone`: a filled circle of radius `this.radius`; the template
literal ends with a newline and two spaces. -/
def drawStone (x4 y4 : Int) (colorRing colorInside : String) : String :=
  "<circle cx=\"" ++ qStr x4 ++ "\" cy = \"" ++ qStr y4 ++ "\" r = \"" ++ qStr rad4 ++
    "\" stroke = \"" ++ colorRing ++ "\" fill = \"" ++ colorInside ++ "\" />\n  "

/-- `markIntersection`: circle marks for `W`/`B`/`C`, square marks for
`S`/`@`/`#`, the hoshi dot for `,`, nothing otherwise.  The stray `"` after
`fill = "none"` reproduces the source's string concatenation verbatim. -/
def markIntersection (x4 y4 r4 : Int) (color : String) (t : Tok) : String :=
  match t with
  | ['W'] | ['B'] | ['C'] =>
    "<circle cx=\"" ++ qStr x4 ++ "\" cy = \"" ++ qStr y4 ++ "\" r = \"" ++ qStr (r4 - 12) ++
      "\" stroke = \"" ++ color ++ "\" fill = \"none\"\" />\n" ++
    "<circle cx=\"" ++ qStr x4 ++ "\" cy = \"" ++ qStr y4 ++ "\" r = \"" ++ qStr (r4 - 8) ++
      "\" stroke = \"" ++ color ++ "\" fill = \"none\"\" />\n"
  | ['S'] | ['@'] | ['#'] =>
    "<rect x=\"" ++ qStr (x4 - r4 / 2 + 4) ++ "\" y = \"" ++ qStr (y4 - r4 / 2 + 4) ++
      "\" width = \"7\" height = \"7\" stroke = \"" ++ color ++ "\" fill = \"none\"\" />\n"
  | [','] =>
    "<circle cx=\"" ++ qStr x4 ++ "\" cy = \"" ++ qStr y4 ++ "\" r = \"3\" stroke = \"" ++
      color ++ "\" fill = \"" ++ color ++ "\" />\n"
  | _ => ""

/-- `getIntersectionType`: probe the four neighbours of `(x, y)` for the
border sentinel.  The row probes `rows[y-1]` and `rows[y+1]` read a
property of the row object, so a missing row is a JavaScript `TypeError`,
modelled as `none`; a missing token inside an existing row is just
`undefined`, which compares unequal to `"%"`. -/
def getIntersectionType (rows : List (List Tok)) (x y : Int) : Option (List Char) :=
  match rowAt rows (y - 1) with
  | none => none
  | some ru =>
    match rowAt rows (y + 1) with
    | none => none
    | some rb =>
      match rowAt rows y with
      | none => none
      | some rm =>
        some ((if tokIn ru x == some ['%'] then ['U'] else []) ++
              (if tokIn rb x == some ['%'] then ['B'] else []) ++
              (if tokIn rm (x - 1) == some ['%'] then ['L'] else []) ++
              (if tokIn rm (x + 1) == some ['%'] then ['R'] else []))

/-- `drawIntersection`: one line segment per direction whose letter is
absent from `type`.  The `B` segment comes from a template literal and
ends with a newline and two spaces. -/
def drawIntersection (x4 y4 : Int) (color : String) (ty : List Char) : String :=
  (if !(ty.contains 'U') then
    "<line x1=\"" ++ qStr x4 ++ "\" y1=\"" ++ qStr (y4 - rad4) ++ "\" x2=\"" ++ qStr x4 ++
      "\" y2=\"" ++ qStr y4 ++ "\" stroke=\"" ++ color ++ "\" />\n" else "") ++
  (if !(ty.contains 'B') then
    "<line x1=\"" ++ qStr x4 ++ "\" y1=\"" ++ qStr (y4 + rad4) ++ "\" x2=\"" ++ qStr x4 ++
      "\" y2=\"" ++ qStr y4 ++ "\" stroke=\"" ++ color ++ "\" />\n  " else "") ++
  (if !(ty.contains 'L') then
    "<line x1=\"" ++ qStr (x4 - rad4) ++ "\" y1=\"" ++ qStr y4 ++ "\" x2=\"" ++ qStr x4 ++
      "\" y2=\"" ++ qStr y4 ++ "\" stroke=\"" ++ color ++ "\" />\n" else "") ++
  (if !(ty.contains 'R') then
    "<line x1=\"" ++ qStr (x4 + rad4) ++ "\" y1=\"" ++ qStr y4 ++ "\" x2=\"" ++ qStr x4 ++
      "\" y2=\"" ++ qStr y4 ++ "\" stroke=\"" ++ color ++ "\" />\n" else "")

/-- A JS value that may be `undefined`, coerced to a string by `+`. -/
def strOfJs : Option Tok → String
  | some t => String.mk t
  | none => "undefined"

/-- The `<text>` element emitted after the number/letter branches. -/
def textElem (x4 y4 : Int) (fill content : String) : String :=
  "<text x=\"" ++ qStr x4 ++ "\" y=\"" ++ qStr y4 ++ "\" fill=\"" ++ fill ++
    "\" class=\"markup\" " ++ svgMarkupTextSize ++ ">" ++ content ++ "</text>\n"

/-- The shared text emission: `xOffset` is a full cell width for numbers
≥ 10 and half a cell width otherwise (`NaN >= 10` is false), `yOffset`
is `fontSize.h / 2 - 12.5 = -4.5` (i.e. −18 quarters). -/
def textFor (x4 y4 : Int) (mcol : String) (cc : Option Tok) : String :=
  let xOff : Int := match (match cc with | some t => parseIntJS t | none => none) with
    | some v => if v ≥ 10 then 4 * fontW else 4 * (fontW / 2)
    | none => 4 * (fontW / 2)
  textElem (x4 - xOff) (y4 + 18) mcol (strOfJs cc)

/-- `evencolor` as assigned in `createSVG` (step 8). -/
def evencolorOf (fc : Char) : String := if fc = 'W' then blackColor else whiteColor

/-- `oddcolor` as assigned in `createSVG` (step 8). -/
def oddcolorOf (fc : Char) : String := if fc = 'W' then whiteColor else blackColor

/-- Result of drawing one cell: the markup appended to
`imgSvg["svgDiagram"]`, the value of the shared `markupColor` variable
after the cell, and the fragment appended to `imgSvg["links"]` by the
link-overlay step (`none` when the token is not a link-map key). -/
structure CellOut where
  svgItem : String
  markup : String
  linkFrag : Option String
  deriving Repr, DecidableEq

/-- The clickable-overlay fragment for a linked cell. -/
def linkFragFor (url : Tok) (x4 y4 : Int) : String :=
  "<a href=\"" ++ String.mk url ++ "\" >\n" ++
  "<rect x=\"" ++ qStr (x4 - rad4) ++ "\" y=\"" ++ qStr (y4 - rad4) ++
    "\" width=\"" ++ toString diameter ++ "\" height=\"" ++ toString diameter ++
    "\" stroke=\"" ++ gobanColor ++ "\" fill=\"" ++ linkColor ++
    "\" fill-opacity=\"0.4\" />\n" ++
  "</a>\n"

/-- The clickable-overlay test at the top of the cell loop: `none` when
the token is not a key of the link map. -/
def linkFragOf (lm : List (Tok × Tok)) (curchar : Option Tok) (x4 y4 : Int) :
    Option String :=
  match curchar with
  | some t =>
    match lookupLink lm t with
    | some url => some (linkFragFor url x4 y4)
    | none => none
  | none => none

/-- The `switch` on the current token: the markup appended to `svgItem`
and the value of the shared `markupColor` variable after the cell.
`curchar = none` models an `undefined` token (row shorter than the
column span); `none` as the overall result models the `TypeError` thrown
inside `getIntersectionType`.  In the lowercase-letter branch the source
computes `bkColor` and calls `markIntersection` with it but discards the
returned string (the call's result is not appended to `svgItem`); the
embedding mirrors this with an unused binding. -/
def cellDrawing (lm : List (Tok × Tok)) (evencolor oddcolor : String)
    (rows : List (List Tok)) (ypos xpos x4 y4 : Int) (markupIn : String)
    (curchar : Option Tok) : Option (String × String) :=
  let cc := curchar
  if cc == some ['X'] then some (drawStone x4 y4 blackColor blackColor, markupIn)
  else if cc == some ['B'] then
    some (drawStone x4 y4 blackColor blackColor ++
          markIntersection x4 y4 rad4 redColor ['B'], markupIn)
  else if cc == some ['#'] then
    some (drawStone x4 y4 blackColor blackColor ++
          markIntersection x4 y4 rad4 redColor ['#'], markupIn)
  else if cc == some ['O'] then some (drawStone x4 y4 blackColor whiteColor, markupIn)
  else if cc == some ['W'] then
    some (drawStone x4 y4 blackColor whiteColor ++
          markIntersection x4 y4 rad4 redColor ['W'], markupIn)
  else if cc == some ['@'] then
    some (drawStone x4 y4 blackColor whiteColor ++
          markIntersection x4 y4 rad4 redColor ['@'], markupIn)
  else if cc == some ['.'] then
    (getIntersectionType rows xpos ypos).map
      (fun ty => (drawIntersection x4 y4 blackColor ty, markupIn))
  else if cc == some [','] then
    (getIntersectionType rows xpos ypos).map
      (fun ty => (drawIntersection x4 y4 blackColor ty ++
                  markIntersection x4 y4 rad4 blackColor [','], markupIn))
  else if cc == some ['C'] then
    (getIntersectionType rows xpos ypos).map
      (fun ty => (drawIntersection x4 y4 blackColor ty ++
                  markIntersection x4 y4 rad4 redColor ['C'], markupIn))
  else if cc == some ['S'] then
    (getIntersectionType rows xpos ypos).map
      (fun ty => (drawIntersection x4 y4 blackColor ty ++
                  markIntersection x4 y4 rad4 redColor ['S'], markupIn))
  else
    let pI : Option Int := match cc with | some t => parseIntJS t | none => none
    if (match pI with | some v => jsRem v 2 == 1 | none => false) then
      some (drawStone x4 y4 blackColor oddcolor ++ textFor x4 y4 evencolor cc, evencolor)
    else if (match pI with | some v => jsRem v 2 == 0 || v == 0 | none => false) then
      let cc2 := if cc == some ['0'] then some ['1', '0'] else cc
      some (drawStone x4 y4 blackColor evencolor ++ textFor x4 y4 oddcolor cc2, oddcolor)
    else if (match cc with | some t => jsStrLe ['a'] t && jsStrLe t ['z'] | none => false) then
      (getIntersectionType rows xpos ypos).map (fun ty =>
        let bkColor := match cc with
          | some t => if (lookupLink lm t).isSome then linkColor else gobanColor
          | none => gobanColor
        let _discarded := markIntersection x4 y4 (rad4 + 16) bkColor ['@']
        (drawIntersection x4 y4 blackColor ty ++
         drawStone x4 y4 gobanColor gobanColor ++
         textFor x4 y4 blackColor cc, blackColor))
    else
      some ("", markupIn)

/-- One cell of the drawing loop: the link-overlay test followed by the
`switch` on the token (see `cellDrawing`). -/
def cellStep (lm : List (Tok × Tok)) (evencolor oddcolor : String)
    (rows : List (List Tok)) (ypos xpos x4 y4 : Int) (markupIn : String)
    (curchar : Option Tok) : Option CellOut :=
  (cellDrawing lm evencolor oddcolor rows ypos xpos x4 y4 markupIn curchar).map
    (fun b => { svgItem := b.1, markup := b.2, linkFrag := linkFragOf lm curchar x4 y4 })

/-- The inclusive integer range `[a, b]` (empty when `a > b`), the index
set of a `for (i = a; i <= b; i++)` loop. -/
def intRange (a b : Int) : List Int :=
  if a > b then [] else (List.range (b - a + 1).toNat).map (fun i => a + i)

/-- The accumulators threaded through the cell loops: the
`imgSvg["svgDiagram"]` string, the never-initialized `imgSvg["links"]`
entry (`none` models `undefined`), and the shared `markupColor` local. -/
structure RenderAcc where
  svgDiagram : String
  links : Option String
  markup : String
  deriving Repr, DecidableEq

/-- JavaScript coercion of a possibly-`undefined` string by `+`. -/
def jsUndef : Option String → String
  | none => "undefined"
  | some s => s

/-- Advance the render accumulator by one cell at `(ypos, xpos)`. -/
def stepCell (s : GoState) (evencolor oddcolor : String) (acc : RenderAcc)
    (yx : Int × Int) : Option RenderAcc :=
  let y4 := (yx.1 - s.startrow) * (2 * rad4) + rad4 + 4 * s.offset_y
  let x4 := (yx.2 - s.startcol) * (2 * rad4) + rad4 + 4 * s.offset_x
  (cellStep s.linkmap evencolor oddcolor s.rows yx.1 yx.2 x4 y4 acc.markup
      (tokAt s.rows yx.1 yx.2)).map
    (fun c =>
      { svgDiagram := acc.svgDiagram ++ c.svgItem
        links := match c.linkFrag with
          | none => acc.links
          | some f => some (jsUndef acc.links ++ f)
        markup := c.markup })

/-- The row-major list of cells visited by the nested `ypos`/`xpos` loops. -/
def cellList (s : GoState) : List (Int × Int) :=
  (intRange s.startrow s.endrow).flatMap
    (fun y => (intRange s.startcol s.endcol).map (fun x => (y, x)))

/-- The two nested drawing loops of `createSVG`; `none` models an
uncaught `TypeError` from `getIntersectionType`. -/
def renderCells (s : GoState) (evencolor oddcolor : String) : Option RenderAcc :=
  (cellList s).foldl
    (fun acc yx => acc.bind (fun a => stepCell s evencolor oddcolor a yx))
    (some { svgDiagram := "", links := none, markup := "" })

/-- The 59-character coordinate alphabet (skipping `I` and `i`). -/
def coordChars : String := "ABCDEFGHJKLMNOPQRSTUVWXYZabcdefghjklmnopqrstuvwxyz123456789"

/-- JavaScript `coordChars[i]` coerced into a string concatenation:
out-of-range (or `NaN`) indexing gives `undefined`. -/
def charAtJs (str : String) (i : Option Int) : String :=
  match i with
  | none => "undefined"
  | some v =>
    if 0 ≤ v ∧ v.toNat < str.length then String.singleton (str.toList.getD v.toNat ' ')
    else "undefined"

/-- `toString()` of a JS number that may be `NaN`. -/
def jsNumStr : Option Int → String
  | none => "NaN"
  | some v => toString v

/-- `drawCoordinates` (called with `color = black`,
`coordClass = "coordClass"` and the default text size).  `coordY` and
`coordX` are JS numbers that may be `NaN` when they are derived from a
`NaN` `boardSize`.  The stray `"` after the text-size attribute in the
row-label element reproduces the source verbatim. -/
def drawCoordinates (s : GoState) : String :=
  let coordY0 : Option Int :=
    if s.bottomborder ≠ 0 then some (s.endrow - s.startrow + 1)
    else if s.topborder ≠ 0 then s.boardSize
    else some 0
  let coordX0 : Option Int :=
    if s.leftborder ≠ 0 then some 0
    else if s.rightborder ≠ 0 then
      match s.boardSize with
      | none => none
      | some b => some (if b - s.endcol - 1 < 0 then 0 else b - s.endcol - 1)
    else some 0
  let leftX : Int := 6 + fontW
  let imgY0 : Int := 4 * (12 + fontH + 2) + rad4 - 4 * (fontH / 2)
  let rowLabels :=
    (intRange 0 (s.endrow - s.startrow - 1)).foldl
      (fun (st : Int × Option Int × String) _ =>
        let xOff : Int := match st.2.1 with
          | some v => if v ≥ 10 then fontW else fontW / 2
          | none => fontW / 2
        let elem := "<text x=\"" ++ toString (leftX - xOff) ++ "\" y=\"" ++ qStr st.1 ++
          "\" class=\"coordClass\" " ++ svgDefaultTextSize ++ "\" color=\"" ++ blackColor ++
          "\">" ++ jsNumStr st.2.1 ++ " </text>\n"
        (st.1 + 70, st.2.1.map (fun v => v - 1), st.2.2 ++ elem))
      (imgY0, coordY0, "")
  let topY : Int := 18
  let imgX0 : Int := 4 * (2 + fontW * 2 + 4) + rad4 - 4 * (fontW / 2)
  let colLabels :=
    (intRange 0 (s.endcol - s.startcol)).foldl
      (fun (st : Int × Option Int × String) _ =>
        let elem := "<text x=\"" ++ qStr st.1 ++ "\" y=\"" ++ toString topY ++
          "\" class=\"coordClass\" " ++ svgDefaultTextSize ++ " color=\"" ++ blackColor ++
          "\">" ++ charAtJs coordChars st.2.1 ++ " </text>\n"
        (st.1 + 2 * rad4, st.2.1.map (fun v => v + 1), st.2.2 ++ elem))
      (imgX0, coordX0, "")
  rowLabels.2.2 ++ colLabels.2.2

/-- The rendered image plus its dimensions; `width = height = none`
models the `null` dimensions of the error placeholder. -/
structure SvgRes where
  xml : String
  width : Option Int
  height : Option Int
  deriving Repr, DecidableEq

/-- `createSvgErrorMessage` builds detached DOM nodes and returns
`String(svgError)`, which is the default object-to-string coercion of an
`SVGGElement` — a constant tag, independent of the message (the computed
text lands only in the discarded DOM nodes). -/
def errorSvgXml : String := "[object SVGGElement]"

def openTagStr (s : GoState) : String :=
  "<svg width = \"" ++ toString s.imageWidth ++ "\" height = \"" ++
    toString s.imageHeight ++ "\">\n"

def backgroundStr (s : GoState) : String :=
  "<rect  x=\"0\" y=\"0\" width=\"" ++ toString s.imageWidth ++ "\" height = \"" ++
    toString s.imageHeight ++ "\" fill = \"" ++ gobanColor ++ "\"/>\n"

def coordsStr (s : GoState) : String :=
  if s.coordinates then drawCoordinates s else ""

/-- `createSVG`, output only: the error placeholder with `null`
dimensions on a failed parse, otherwise the assembled document
`openSvgTag ++ background ++ svgDiagram ++ links ++ coordinates ++
closeSvgTag` (the `links` entry is read back through the JS `undefined`
coercion).  `none` models a thrown `TypeError`. -/
def createSVGRun (s : GoState) : Option SvgRes :=
  match s.diagram with
  | none => some { xml := errorSvgXml, width := none, height := none }
  | some _ =>
    (renderCells s (evencolorOf s.firstColor) (oddcolorOf s.firstColor)).map
      (fun a =>
        { xml := openTagStr s ++ backgroundStr s ++ a.svgDiagram ++ jsUndef a.links ++
            coordsStr s ++ "</svg>\n"
          width := some s.imageWidth
          height := some s.imageHeight })

/-- `createSVG` as a state transformer: the only instance field a call can
write is `failureErrorMessage`, assigned in the parse-failure branch; the
valid branch uses locals only. -/
def createSVGFull (s : GoState) : Option SvgRes × GoState :=
  match s.diagram with
  | none =>
    (some { xml := errorSvgXml, width := none, height := none },
     { s with failureErrorMessage := "Parsing of ASCII diagram failed".toList })
  | some _ => (createSVGRun s, s)

/-! ## Claim-side predicates -/

/-- The spec's reading of the header-match failure: the trimmed first
line does not match the control grammar. -/
def headerFails (input : List Char) : Prop :=
  matchHeader (jsTrim ((splitNl input).headD [])) = none

/-- The spec's reading of degenerate normalized bounds: the header
matched, but the dimension check of the constructor fires. -/
def degenerateInput (input : List Char) : Prop :=
  ∃ hh, matchHeader (jsTrim ((splitNl input).headD [])) = some hh ∧
    DegenerateDims (initBoardAndDimensions hh.coordinates
      (scanLines ((splitNl input).drop 1)).1)

/-- A space that is neither the first nor the last character of the line
(the spec's "interior space"). -/
def hasInteriorSpace (l : List Char) : Bool :=
  (List.range l.length).any
    (fun i => decide (0 < i) && decide (i + 1 < l.length) && (l.get? i == some ' '))

/-- The second-to-last token of a row (`none` when the row has fewer than
two tokens). -/
def secondToLastTok (r : List Tok) : Option Tok :=
  if r.length < 2 then none else r.get? (r.length - 2)

/-- On a failed parse, `createSVG` writes the failure message and returns
the error placeholder with `null` dimensions; no other field changes. -/
theorem render_error_of_none (s : GoState) (hs : s.diagram = none) :
    createSVGFull s =
      (some { xml := errorSvgXml, width := none, height := none },
       { s with failureErrorMessage := "Parsing of ASCII diagram failed".toList }) := by
  simp [createSVGFull, hs]

/-- The shape `imgSvg["links"]` can have: still `undefined`, or a string
that begins with the text `"undefined"` (first appended by `+=` on the
never-initialized entry). -/
def LinkShape (o : Option String) : Prop :=
  o = none ∨ ∃ r, o = some ("undefined" ++ r)

theorem fold_link_shape (s : GoState) (ec oc : String) :
    ∀ (l : List (Int × Int)) (acc0 : Option RenderAcc),
      (∀ a, acc0 = some a → LinkShape a.links) →
      ∀ a', l.foldl (fun acc yx => acc.bind (fun a => stepCell s ec oc a yx)) acc0 = some a' →
        LinkShape a'.links := by
  intro l
  induction l with
  | nil => intro acc0 h0 a' ha'; exact h0 a' ha'
  | cons yx t ih =>
    intro acc0 h0 a' ha'
    refine ih _ ?_ a' ha'
    intro a hstep
    rcases hacc : acc0 with _ | a0
    · rw [hacc] at hstep; simp at hstep
    · rw [hacc] at hstep
      simp only [Option.bind_some] at hstep
      unfold stepCell at hstep
      rcases Option.map_eq_some'.mp hstep with ⟨c, _, hc2⟩
      subst hc2
      have hsh := h0 a0 hacc
      rcases hfr : c.linkFrag with _ | f
      · simpa [hfr] using hsh
      · rcases hsh with hn | ⟨r, hr⟩
        · exact Or.inr ⟨f, by simp [hfr, hn, jsUndef]⟩
        · exact Or.inr ⟨r ++ f, by simp [hfr, hr, jsUndef, String.append_assoc]⟩

/-! ## Structure of the normalized grid

The accumulated diagram body is either empty or ends with a newline, and
the newline collapse writes a space in front of every newline it keeps;
consequently the split grid always ends with an empty trailing row, and
every other row ends with a space. -/

theorem splitNl_ne_nil : ∀ l : List Char, splitNl l ≠ []
  | [] => by simp [splitNl]
  | c :: rest => by
    by_cases hc : c = '\n'
    · simp [splitNl, hc]
    · cases hsr : splitNl rest with
      | nil => simp [splitNl, hc, hsr]
      | cons r rs => simp [splitNl, hc, hsr]

theorem splitNl_append_nl : ∀ l : List Char, splitNl (l ++ ['\n']) = splitNl l ++ [[]]
  | [] => by simp [splitNl]
  | c :: rest => by
    by_cases hc : c = '\n'
    · simpa [splitNl, hc] using splitNl_append_nl rest
    · have ih := splitNl_append_nl rest
      cases hsr : splitNl rest with
      | nil => exact absurd hsr (splitNl_ne_nil rest)
      | cons r rs =>
        rw [hsr] at ih
        simp [splitNl, hc, ih, hsr]

theorem collapseNlAux_append_nl :
    ∀ (u : List Char) (b : Bool),
      (∃ v, collapseNlAux b (u ++ ['\n']) = v ++ [' ', '\n']) ∨
      (b = true ∧ collapseNlAux b (u ++ ['\n']) = [])
  | [], b => by
    cases b
    · exact Or.inl ⟨[], by simp [collapseNlAux]⟩
    · exact Or.inr ⟨rfl, by simp [collapseNlAux]⟩
  | c :: u, b => by
    by_cases hc : c = '\n'
    · subst hc
      cases b with
      | true =>
        rcases collapseNlAux_append_nl u true with ⟨v, hv⟩ | ⟨_, h0⟩
        · exact Or.inl ⟨v, by simpa [collapseNlAux] using hv⟩
        · exact Or.inr ⟨rfl, by simpa [collapseNlAux] using h0⟩
      | false =>
        rcases collapseNlAux_append_nl u true with ⟨v, hv⟩ | ⟨_, h0⟩
        · exact Or.inl ⟨' ' :: '\n' :: v, by simp [collapseNlAux, hv]⟩
        · exact Or.inl ⟨[], by simp [collapseNlAux, h0]⟩
    · rcases collapseNlAux_append_nl u false with ⟨v, hv⟩ | ⟨hb, _⟩
      · exact Or.inl ⟨c :: v, by simp [collapseNlAux, hc, hv]⟩
      · exact absurd hb (by simp)

theorem collapseNl_append_nl (u : List Char) :
    ∃ v, collapseNl (u ++ ['\n']) = v ++ [' ', '\n'] := by
  rcases collapseNlAux_append_nl u false with ⟨v, hv⟩ | ⟨hb, _⟩
  · exact ⟨v, hv⟩
  · cases hb

/-- The diagram body accumulated by the line scan: empty, or
newline-terminated. -/
def EndsNl (t : List Char) : Prop := t = [] ∨ ∃ u, t = u ++ ['\n']

theorem scanLines_body_endsNl (lines : List Tok) : EndsNl (scanLines lines).1 := by
  unfold scanLines
  suffices h : ∀ (ls : List Tok) (acc : Tok × List (Tok × Tok)), EndsNl acc.1 →
      EndsNl (ls.foldl (fun acc line =>
        let d := match bodyLineMatch line with
          | some t => acc.1 ++ t ++ ['\n']
          | none => acc.1
        let m := match linkLineMatch line with
          | some g =>
            match jsTrim g.1 with
            | [c] => if isAnchorChar c then ([c], jsTrim g.2) :: acc.2 else acc.2
            | _ => acc.2
          | none => acc.2
        (d, m)) acc).1 by
    exact h lines ([], []) (Or.inl rfl)
  intro ls
  induction ls with
  | nil => intro acc h; exact h
  | cons l t ih =>
    intro acc h
    apply ih
    cases hb : bodyLineMatch l with
    | none => simpa [hb] using h
    | some tk => exact Or.inr ⟨acc.1 ++ tk, by simp [hb]⟩

theorem makeRows_last_empty (d : List Char) (h : EndsNl d) :
    ∃ X, makeRows d = X ++ [[]] := by
  rcases h with rfl | ⟨u, rfl⟩
  · exact ⟨[], rfl⟩
  · unfold makeRows normalizeDiag
    rw [List.map_append, List.filter_append]
    have hnl : (List.map normalizeChar ['\n']).filter
        (fun c => !(c == '\t' || c == '\r' || c == '$')) = ['\n'] := rfl
    rw [hnl]
    rcases collapseNl_append_nl
      ((u.map normalizeChar).filter (fun c => !(c == '\t' || c == '\r' || c == '$')))
      with ⟨v, hv⟩
    rw [hv, show v ++ [' ', '\n'] = (v ++ [' ']) ++ ['\n'] by simp,
      splitNl_append_nl, List.map_append]
    exact ⟨_, rfl⟩

theorem detectBorders_last_empty (X : List (List Tok)) :
    (detectBorders (X ++ [[]])).bottomborder = 0 ∧
    (detectBorders (X ++ [[]])).endrow = ((X ++ [[]]).length : Int) - 1 := by
  have htok : tokAt (X ++ [[]]) (((X ++ [[]]).length : Int) - 1) 1 = none := by
    unfold tokAt rowAt tokIn
    have h1 : ¬((((X ++ [[]]).length : Int) - 1) < 0) := by simp
    rw [if_neg h1]
    have h2 : ((((X ++ [[]]).length : Int) - 1)).toNat = X.length := by simp
    rw [h2]
    simp [List.get?_eq_getElem?]
  unfold detectBorders
  simp only [htok]
  simp

theorem initBoard_fields (c : Bool) (d : List Char) :
    (initBoardAndDimensions c d).bottomborder = (detectBorders (makeRows d)).bottomborder ∧
    (initBoardAndDimensions c d).endrow = (detectBorders (makeRows d)).endrow ∧
    (initBoardAndDimensions c d).rows = makeRows d := by
  unfold initBoardAndDimensions
  dsimp only
  split
  · split
    · exact ⟨rfl, rfl, rfl⟩
    · exact ⟨rfl, rfl, rfl⟩
  · exact ⟨rfl, rfl, rfl⟩

theorem getLast?_mem {α : Type} {l : List α} {a : α} (h : l.getLast? = some a) :
    a ∈ l := by
  rw [← List.dropLast_append_getLast? a (Option.mem_def.mpr h)]
  exact List.mem_append_right _ (by simp)

theorem splitNl_space_nl (w : List Char) :
    splitNl (' ' :: '\n' :: w) = [' '] :: splitNl w := by
  simp [splitNl]

/-- Every line of the normalized body other than the trailing fragment
ends with a space: the newline collapse puts `' '` in front of every
newline it emits. -/
theorem splitNl_collapse_dropLast_space :
    ∀ (l : List Char) (b : Bool) (p : List Char),
      p ∈ (splitNl (collapseNlAux b l)).dropLast → p.getLast? = some ' '
  | [], b, p => by
    intro hp
    simp [collapseNlAux, splitNl] at hp
  | c :: rest, b, p => by
    intro hp
    by_cases hc : c = '\n'
    · subst hc
      cases b with
      | true =>
        exact splitNl_collapse_dropLast_space rest true p
          (by simpa [collapseNlAux] using hp)
      | false =>
        rw [show collapseNlAux false ('\n' :: rest) =
              ' ' :: '\n' :: collapseNlAux true rest from by simp [collapseNlAux],
            splitNl_space_nl,
            List.dropLast_cons_of_ne_nil (splitNl_ne_nil _)] at hp
        rcases List.mem_cons.mp hp with rfl | hp2
        · rfl
        · exact splitNl_collapse_dropLast_space rest true p hp2
    · rw [show collapseNlAux b (c :: rest) = c :: collapseNlAux false rest from by
          simp [collapseNlAux, hc]] at hp
      cases hsw : splitNl (collapseNlAux false rest) with
      | nil => exact absurd hsw (splitNl_ne_nil _)
      | cons r rs =>
        rw [show splitNl (c :: collapseNlAux false rest) = (c :: r) :: rs from by
            simp [splitNl, hc, hsw]] at hp
        cases hrs : rs with
        | nil =>
          rw [hrs] at hp; simp at hp
        | cons r2 rs2 =>
          rw [hrs, List.dropLast_cons_of_ne_nil (by simp)] at hp
          rcases List.mem_cons.mp hp with rfl | hp2
          · have hr : r.getLast? = some ' ' := by
              apply splitNl_collapse_dropLast_space rest false r
              rw [hsw, hrs, List.dropLast_cons_of_ne_nil (by simp)]
              exact List.mem_cons_self _ _
            cases r with
            | nil => simp at hr
            | cons a as => rw [List.getLast?_cons_cons]; exact hr
          · apply splitNl_collapse_dropLast_space rest false p
            rw [hsw, hrs, List.dropLast_cons_of_ne_nil (by simp)]
            exact List.mem_cons_of_mem _ hp2

end Goban

/-- C1: the claim says constructing a `GoDiagram` and calling `createSVG`
never crashes, and that for every empty-intersection or letter cell in
the visible range the four neighbour probes of `getIntersectionType` are
well-defined grid accesses.  The code violates this: for the borderless
input `"$$\n$$...\n$$..."` the parse succeeds, but the cell at
`(0, 0)` holds `'.'` with `startrow = 0`, so `getIntersectionType`
reads `this.rows[-1][0]` — a property of `undefined` — and `createSVG`
throws instead of returning a result (`none` in the embedding). -/
theorem claim_C1_code_bug :
    (Goban.parseGo "$$\n$$...\n$$...".toList).diagram.isSome = true ∧
    (Goban.parseGo "$$\n$$...\n$$...".toList).startrow = 0 ∧
    Goban.tokAt (Goban.parseGo "$$\n$$...\n$$...".toList).rows 0 0 = some ['.'] ∧
    Goban.getIntersectionType (Goban.parseGo "$$\n$$...\n$$...".toList).rows 0 0 = none ∧
    Goban.createSVGRun (Goban.parseGo "$$\n$$...\n$$...".toList) = none :=
  ⟨by decide, by decide, by decide, by decide, by decide⟩

/-- C2: an input whose first line fails the header match, or whose
normalized bounds are degenerate, puts the diagram into the permanent
invalid state: the first and second `createSVG` calls return the error
placeholder with `width = null` and `height = null`, and the state after
the first call is a fixed point of `createSVG`, so every further call
returns the same placeholder. -/
theorem claim_C2 (input : List Char)
    (h : Goban.headerFails input ∨ Goban.degenerateInput input) :
    (Goban.createSVGFull (Goban.parseGo input)).1 =
      some { xml := Goban.errorSvgXml, width := none, height := none } ∧
    (Goban.createSVGFull ((Goban.createSVGFull (Goban.parseGo input)).2)).1 =
      some { xml := Goban.errorSvgXml, width := none, height := none } ∧
    (Goban.createSVGFull ((Goban.createSVGFull (Goban.parseGo input)).2)).2 =
      (Goban.createSVGFull (Goban.parseGo input)).2 := by
  have hd : (Goban.parseGo input).diagram = none := by
    rcases h with h | ⟨hh, hm, hdeg⟩
    · unfold Goban.headerFails at h
      simp only [Goban.parseGo, h]
    · simp only [Goban.parseGo, hm]
      rw [if_pos hdeg]
  have h1 := Goban.render_error_of_none _ hd
  have hd2 : ((Goban.createSVGFull (Goban.parseGo input)).2).diagram = none := by
    rw [h1]; exact hd
  refine ⟨by rw [h1], by rw [Goban.render_error_of_none _ hd2], ?_⟩
  rw [Goban.render_error_of_none _ hd2, h1]

/-- C2 witness: a first line without the `$$` prefix fails the header
match and renders (twice) as the error placeholder with null sizes. -/
theorem claim_C2_witness :
    (Goban.headerFails "hello".toList ∨ Goban.degenerateInput "hello".toList) ∧
    (Goban.createSVGFull (Goban.parseGo "hello".toList)).1 =
      some { xml := Goban.errorSvgXml, width := none, height := none } :=
  ⟨Or.inl rfl, (claim_C2 "hello".toList (Or.inl rfl)).1⟩

/-- C3: the claim says a digit run in the first line becomes `boardSize`.
The code's regex group is `(d+)?` — a run of literal `d` characters, not
`\d+` — so for the first line `"$$B13"` the digits fall through to the
title and `boardSize` stays at the default 19 (and a line that does
match the group, such as `"$$Bdd"`, drives `parseInt` to `NaN`); the
code's own header comment documents `(size)` as the board size. -/
theorem claim_C3_code_bug :
    (Goban.parseGo "$$B13".toList).boardSize = some 19 ∧
    (Goban.parseGo "$$B13".toList).title = ['1', '3'] ∧
    (Goban.parseGo "$$Bdd".toList).boardSize = none :=
  ⟨rfl, rfl, rfl⟩

/-- C5: whenever the constructor leaves the diagram valid, the normalized
bounds satisfy `startrow ≤ endrow` and `startcol ≤ endcol`; inputs that
violate these bounds are exactly those caught by the final dimension
check, which nulls the diagram. -/
theorem claim_C5 (input : List Char)
    (h : (Goban.parseGo input).diagram.isSome = true) :
    (Goban.parseGo input).startrow ≤ (Goban.parseGo input).endrow ∧
    (Goban.parseGo input).startcol ≤ (Goban.parseGo input).endcol := by
  rcases hm : Goban.matchHeader (Goban.jsTrim ((Goban.splitNl input).headD []))
    with _ | hh
  · simp only [Goban.parseGo, hm] at h
    simp at h
  · simp only [Goban.parseGo, hm] at h ⊢
    split at h
    · simp at h
    · rename_i hdeg
      unfold Goban.DegenerateDims at hdeg
      push_neg at hdeg
      exact ⟨by omega, by omega⟩

/-- C5 witness: a fully bordered 1×1 diagram parses as valid and its
bounds are in order. -/
theorem claim_C5_witness :
    (Goban.parseGo "$$B\n$$+---+\n$$| . |\n$$+---+".toList).diagram.isSome = true ∧
    (Goban.parseGo "$$B\n$$+---+\n$$| . |\n$$+---+".toList).startrow ≤
      (Goban.parseGo "$$B\n$$+---+\n$$| . |\n$$+---+".toList).endrow ∧
    (Goban.parseGo "$$B\n$$+---+\n$$| . |\n$$+---+".toList).startcol ≤
      (Goban.parseGo "$$B\n$$+---+\n$$| . |\n$$+---+".toList).endcol :=
  ⟨by decide,
   (claim_C5 "$$B\n$$+---+\n$$| . |\n$$+---+".toList (by decide)).1,
   (claim_C5 "$$B\n$$+---+\n$$| . |\n$$+---+".toList (by decide)).2⟩

set_option maxHeartbeats 4000000 in
/-- C8: a cell whose token is the literal `"0"` draws a stone filled with
the even-move color and emits the numeral text `"10"`; the relabeling
affects only the display text — indeed the whole drawn cell (markup and
the shared `markupColor` state) is identical to that of a literal `"10"`
token. -/
theorem claim_C8 (fc : Char) (lm : List (Goban.Tok × Goban.Tok))
    (rows : List (List Goban.Tok)) (ypos xpos x4 y4 : Int) (m : String) :
    (Goban.cellDrawing lm (Goban.evencolorOf fc) (Goban.oddcolorOf fc)
        rows ypos xpos x4 y4 m (some ['0']) =
      Goban.cellDrawing lm (Goban.evencolorOf fc) (Goban.oddcolorOf fc)
        rows ypos xpos x4 y4 m (some ['1', '0'])) ∧
    Goban.cellDrawing lm (Goban.evencolorOf fc) (Goban.oddcolorOf fc)
        rows ypos xpos x4 y4 m (some ['0']) =
      some (Goban.drawStone x4 y4 Goban.blackColor (Goban.evencolorOf fc) ++
            Goban.textFor x4 y4 (Goban.oddcolorOf fc) (some ['1', '0']),
            Goban.oddcolorOf fc) :=
  ⟨rfl, rfl⟩

/-- C9: on a valid diagram instance `createSVG` mutates no instance
field, so a second call returns a byte-identical result. -/
theorem claim_C9 (s : Goban.GoState) (h : s.diagram.isSome = true) :
    (Goban.createSVGFull s).2 = s ∧
    Goban.createSVGFull ((Goban.createSVGFull s).2) = Goban.createSVGFull s := by
  rcases hd : s.diagram with _ | d
  · rw [hd] at h; simp at h
  · have h2 : (Goban.createSVGFull s).2 = s := by
      simp [Goban.createSVGFull, hd]
    exact ⟨h2, by rw [h2]⟩

/-- C9 witness: rendering a concrete valid diagram twice gives identical
results and leaves the state unchanged. -/
theorem claim_C9_witness :
    (Goban.parseGo "$$W\n$$+-+\n$$|X|\n$$+-+".toList).diagram.isSome = true ∧
    Goban.createSVGFull ((Goban.createSVGFull
        (Goban.parseGo "$$W\n$$+-+\n$$|X|\n$$+-+".toList)).2) =
      Goban.createSVGFull (Goban.parseGo "$$W\n$$+-+\n$$|X|\n$$+-+".toList) :=
  ⟨by decide,
   (claim_C9 (Goban.parseGo "$$W\n$$+-+\n$$|X|\n$$+-+".toList) (by decide)).2⟩

/-- C7: the claim says the occlusion color of a lowercase-letter cell
differs in the emitted cell markup according to whether the letter is a
link-map key.  The code computes `bkColor` but discards the
`markIntersection` result built from it, so the emitted cell markup is
completely independent of the link map (first conjunct, for every token);
concretely, the diagram `"|a.|"` drawn with `a` as a link anchor emits
exactly the same `svgDiagram` as without the link directive, even though
the link map does hold `a` (remaining conjuncts). -/
theorem claim_C7_code_bug :
    (∀ (lm1 lm2 : List (Goban.Tok × Goban.Tok)) (ec oc : String)
        (rows : List (List Goban.Tok)) (ypos xpos x4 y4 : Int) (m : String)
        (cc : Option Goban.Tok),
      Goban.cellDrawing lm1 ec oc rows ypos xpos x4 y4 m cc =
        Goban.cellDrawing lm2 ec oc rows ypos xpos x4 y4 m cc) ∧
    Goban.lookupLink
      (Goban.parseGo "$$B\n$$[a|http://e]\n$$+--+\n$$|a.|\n$$+--+".toList).linkmap
      ['a'] = some "http://e".toList ∧
    (Goban.renderCells (Goban.parseGo "$$B\n$$[a|http://e]\n$$+--+\n$$|a.|\n$$+--+".toList)
        Goban.whiteColor Goban.blackColor).map (fun a => a.svgDiagram) =
      (Goban.renderCells (Goban.parseGo "$$B\n$$+--+\n$$|a.|\n$$+--+".toList)
        Goban.whiteColor Goban.blackColor).map (fun a => a.svgDiagram) := by
  exact ⟨fun lm1 lm2 ec oc rows ypos xpos x4 y4 m cc => rfl, by decide, by decide⟩

/-- C10: for every valid diagram whose render completes, the assembled
document is the open tag, the background, the cell drawings, then the
literal text `undefined` (the uninitialized `imgSvg["links"]` read back
through string coercion), then any link-anchor rectangles, then the
coordinate section and the closing tag. -/
theorem claim_C10 (s : Goban.GoState) (h : s.diagram.isSome = true)
    (out : Goban.SvgRes) (hout : Goban.createSVGRun s = some out) :
    ∃ d r, out.xml =
      Goban.openTagStr s ++ Goban.backgroundStr s ++ d ++ "undefined" ++ r ++
        Goban.coordsStr s ++ "</svg>\n" := by
  rcases hd : s.diagram with _ | dg
  · rw [hd] at h; simp at h
  · rw [Goban.createSVGRun, hd] at hout
    rcases Option.map_eq_some'.mp hout with ⟨a, ha, hxml⟩
    have hsh := Goban.fold_link_shape s (Goban.evencolorOf s.firstColor)
      (Goban.oddcolorOf s.firstColor) (Goban.cellList s) _ (by intro a0 h0; cases h0; exact Or.inl rfl)
      a ha
    rcases hsh with hn | ⟨r, hr⟩
    · refine ⟨a.svgDiagram, "", ?_⟩
      rw [← hxml]
      simp [hn, Goban.jsUndef, String.append_assoc]
    · refine ⟨a.svgDiagram, r, ?_⟩
      rw [← hxml]
      simp [hr, Goban.jsUndef, String.append_assoc]

/-- C10 witness: a concrete bordered diagram (no link anchors) renders
with the bare `undefined` links section in place. -/
theorem claim_C10_witness :
    (Goban.parseGo "$$B\n$$+---+\n$$| X |\n$$+---+".toList).diagram.isSome = true ∧
    ∃ out, Goban.createSVGRun (Goban.parseGo "$$B\n$$+---+\n$$| X |\n$$+---+".toList) =
        some out ∧
      ∃ d r, out.xml =
        Goban.openTagStr (Goban.parseGo "$$B\n$$+---+\n$$| X |\n$$+---+".toList) ++
          Goban.backgroundStr (Goban.parseGo "$$B\n$$+---+\n$$| X |\n$$+---+".toList) ++
          d ++ "undefined" ++ r ++
          Goban.coordsStr (Goban.parseGo "$$B\n$$+---+\n$$| X |\n$$+---+".toList) ++
          "</svg>\n" := by
  refine ⟨by decide, ?_⟩
  rcases hout : Goban.createSVGRun (Goban.parseGo "$$B\n$$+---+\n$$| X |\n$$+---+".toList)
    with _ | out
  · exact absurd hout (by decide)
  · exact ⟨out, rfl, claim_C10 _ (by decide) out hout⟩

/-- C4 counterexample: the claim requires an *interior* space for a line
to be split on spaces.  The body line `X1X` (from input `"$$\n$$X1X"`)
becomes `"X1X "` after normalization — its only space is the trailing
one appended by the newline collapse, so it has no interior space — yet
it contains a digit and is split on spaces into the multi-character
token `"X1X"` rather than the one-character cells `X`,`1`,`X`. -/
theorem claim_C4_counterexample :
    ['X', '1', 'X', ' '] ∈
      (Goban.splitNl (Goban.normalizeDiag
        (Goban.scanLines ((Goban.splitNl "$$\n$$X1X".toList).drop 1)).1)).dropLast ∧
    Goban.hasInteriorSpace ['X', '1', 'X', ' '] = false ∧
    Goban.splitsOnSpaces ['X', '1', 'X', ' '] = true ∧
    Goban.classifyLine ['X', '1', 'X', ' '] = [['X', '1', 'X'], []] := by
  refine ⟨by decide, by decide, by decide, by decide⟩

/-- C4 (amended): a line of the normalized body is split on spaces into
multi-character tokens iff it contains at least one space — interior or
the trailing space that normalization appends to every line — at least
one digit, and no `{`; since every line except the trailing empty
fragment ends in that appended space, the classification reduces to
"contains a digit and no `{`". -/
theorem claim_C4_amended (body line : List Char)
    (h : line ∈ (Goban.splitNl (Goban.normalizeDiag body)).dropLast) :
    Goban.classifyLine line =
      if line.any Char.isDigit && !(line.contains Goban.braceChar) then Goban.splitSp line
      else (line.filter (fun c => c != ' ')).map (fun c => [c]) := by
  have hl : line.getLast? = some ' ' :=
    Goban.splitNl_collapse_dropLast_space _ false line h
  have hcont : line.contains ' ' = true :=
    List.elem_eq_true_of_mem (Goban.getLast?_mem hl)
  unfold Goban.classifyLine Goban.splitsOnSpaces
  rw [hcont]
  simp only [Bool.true_and]

/-- C4 witness: the row `". 12 ."` contains a digit (and interior
spaces), so it is split on spaces, yielding the single two-character
token `"12"` rather than two single-digit cells. -/
theorem claim_C4_amended_witness :
    (['.', ' ', '1', '2', ' ', '.', ' '] ∈
      (Goban.splitNl (Goban.normalizeDiag ". 12 .\n".toList)).dropLast) ∧
    Goban.classifyLine ['.', ' ', '1', '2', ' ', '.', ' '] =
      Goban.splitSp ['.', ' ', '1', '2', ' ', '.', ' '] ∧
    Goban.splitSp ['.', ' ', '1', '2', ' ', '.', ' '] = [['.'], ['1', '2'], ['.'], []] := by
  refine ⟨by decide, ?_, by decide⟩
  have h := claim_C4_amended ". 12 .\n".toList ['.', ' ', '1', '2', ' ', '.', ' ']
    (by decide)
  rw [h, if_pos (by decide)]

/-- C6 counterexample: the claim ties the bottom-border flag to the
*second-to-last* token of the last row, but the code probes the token at
*index 1* (`this.rows[this.endrow][1]`).  On the grid whose single row
is `a . % x` the second-to-last token is the sentinel, yet the flag
stays 0 and the end row is not retracted. -/
theorem claim_C6_counterexample :
    Goban.secondToLastTok ([[['a'], ['.'], ['%'], ['x']]].getLastD []) = some ['%'] ∧
    (Goban.detectBorders [[['a'], ['.'], ['%'], ['x']]]).bottomborder = 0 ∧
    (Goban.detectBorders [[['a'], ['.'], ['%'], ['x']]]).endrow =
      (([[['a'], ['.'], ['%'], ['x']]] : List (List Goban.Tok)).length : Int) - 1 := by
  refine ⟨by decide, by decide, by decide⟩

/-- C6 (amended): the code's bottom probe reads the token at index 1 of
the last row; on every grid produced by normalizing an accumulated body
the last row is the empty trailing fragment, so the bottom-border flag
is always 0 and the working end row is never retracted. -/
theorem claim_C6_amended (coords : Bool) (lines : List Goban.Tok) :
    (Goban.initBoardAndDimensions coords (Goban.scanLines lines).1).bottomborder = 0 ∧
    (Goban.initBoardAndDimensions coords (Goban.scanLines lines).1).endrow =
      (((Goban.initBoardAndDimensions coords (Goban.scanLines lines).1).rows.length : Int)) - 1 := by
  obtain ⟨X, hX⟩ :=
    Goban.makeRows_last_empty _ (Goban.scanLines_body_endsNl lines)
  obtain ⟨h1, h2, h3⟩ := Goban.initBoard_fields coords (Goban.scanLines lines).1
  obtain ⟨hb, he⟩ := Goban.detectBorders_last_empty X
  constructor
  · rw [h1, hX]; exact hb
  · rw [h2, h3, hX]; exact he
